import Mathlib

/-!
Verification of src/notebooks/youtubecustom.py.

The program contains three functions that fetch JSON responses from the
YouTube Data API and reshape them into flat pandas DataFrames:
  - get_video_categories  (CategoryLister in the spec)
  - get_most_popular_videos  (PopularVideoLister in the spec)
  - get_top_level_comments  (CommentLister in the spec)

Shallow embedding:
  - JSON values are modelled by the inductive type JValue.
  - A pandas DataFrame is modelled as a list of column names together with a
    list of rows; a row is an association list from column name to value, in
    which a missing key models a NaN cell (pd.json_normalize produces NaN for
    keys absent from an item).
  - The API client call request.execute() is modelled by passing the response
    as a value of type Except PyErr JValue: an .ok payload is the decoded JSON
    mapping, an .error is an exception raised by the client.
  - Python exceptions are the type PyErr; googleapiclient's HttpError is the
    constructor PyErr.httpError, pandas KeyError is PyErr.keyError.
  - Fallible pandas operations (drop and column selection raise KeyError on a
    missing label) return Except PyErr DataFrame.
-/

inductive JValue where
  | str (s : String)
  | num (n : Int)
  | boolean (b : Bool)
  | null
  | list (xs : List JValue)
  | obj (fs : List (String × JValue))

inductive PyErr where
  | httpError (status : Nat) (content : String)
  | keyError (key : String)
  | other (msg : String)

/-- A DataFrame row: an association list from column name to cell value.
A key absent from the row models a NaN cell. -/
abbrev Row := List (String × JValue)

structure DataFrame where
  cols : List String
  rows : List Row

/-- pd.DataFrame(): the empty frame with no columns and no rows. -/
def DataFrame.empty : DataFrame := ⟨[], []⟩

mutual
/-- One step of pd.json_normalize flattening: a field named k whose value is a
nested object contributes the flattened fields of that object with k and a dot
prepended to each key; any other value (scalars and lists alike) is kept as a
single leaf cell under k. -/
def flattenVal (k : String) : JValue → Row
  | .obj fs => (flattenFields fs).map (fun p => (k ++ "." ++ p.1, p.2))
  | v => [(k, v)]

/-- Flattening of all fields of one JSON object, in field order. -/
def flattenFields : List (String × JValue) → Row
  | [] => []
  | (k, v) :: rest => flattenVal k v ++ flattenFields rest
end

/-- Append a column name if it is not already present (pandas keeps the first
occurrence order when building the union of keys across records). -/
def insertCol (acc : List String) (c : String) : List String :=
  if c ∈ acc then acc else acc ++ [c]

/-- The column set of pd.json_normalize: the union of the flattened keys of all
records, in order of first appearance. -/
def unionCols (rows : List Row) : List String :=
  rows.foldl (fun acc r => r.foldl (fun a p => insertCol a p.1) acc) []

/-- pd.json_normalize requires each record of the list to be a JSON object. -/
def normalizeItem : JValue → Except PyErr Row
  | .obj fs => .ok (flattenFields fs)
  | _ => .error (.other "json_normalize: record is not an object")

/-- Effectful map over a list in the Except monad, stopping at the first
error (the order in which pd.json_normalize visits the records). -/
def mapExcept (f : JValue → Except PyErr Row) : List JValue → Except PyErr (List Row)
  | [] => .ok []
  | x :: xs =>
      match f x with
      | .error e => .error e
      | .ok r =>
          match mapExcept f xs with
          | .error e => .error e
          | .ok rs => .ok (r :: rs)

/-- pd.json_normalize(response["items"]): one row per record, flattened, with
the column set being the ordered union of keys. Fails if the argument is not
a list of objects. -/
def jsonNormalize (v : JValue) : Except PyErr DataFrame :=
  match v with
  | .list items =>
      match mapExcept normalizeItem items with
      | .error e => .error e
      | .ok rows => .ok ⟨unionCols rows, rows⟩
  | _ => .error (.other "json_normalize: not a list of records")

/-- DataFrame.drop(columns=cs): raises KeyError when some label is missing,
otherwise removes the columns from the schema and from every row. -/
def DataFrame.drop (df : DataFrame) (cs : List String) : Except PyErr DataFrame :=
  if cs.all (fun c => df.cols.contains c) then
    .ok ⟨df.cols.filter (fun c => !cs.contains c),
         df.rows.map (fun r => r.filter (fun p => !cs.contains p.1))⟩
  else .error (.keyError "drop: column not found")

/-- The renaming function induced by a rename mapping: a column in the mapping
is replaced by its image, any other column is kept unchanged. -/
def renameWith (m : List (String × String)) (c : String) : String :=
  match m.lookup c with
  | some c2 => c2
  | none => c

/-- Renaming of the keys of one row. -/
def renameRow (m : List (String × String)) (r : Row) : Row :=
  r.map (fun p => (renameWith m p.1, p.2))

/-- DataFrame.rename(columns=m): renames the schema and the keys of each row. -/
def DataFrame.rename (df : DataFrame) (m : List (String × String)) : DataFrame :=
  ⟨df.cols.map (renameWith m), df.rows.map (renameRow m)⟩

/-- Projection of one row onto a column list: a NaN cell (missing key) stays
missing in the projected row. -/
def selectRow (cs : List String) (r : Row) : Row :=
  cs.filterMap (fun c => (r.lookup c).map (fun v => (c, v)))

/-- df[cs]: column selection; raises KeyError when a requested label is not in
the schema, otherwise the new schema is exactly cs, in that order. -/
def DataFrame.select (df : DataFrame) (cs : List String) : Except PyErr DataFrame :=
  if cs.all (fun c => df.cols.contains c) then
    .ok ⟨cs, df.rows.map (selectRow cs)⟩
  else .error (.keyError "select: column not found")

/-- Set a key of a row, overwriting an existing binding in place or appending
a new binding at the end. -/
def setKey : Row → String → JValue → Row
  | [], c, v => [(c, v)]
  | (k, w) :: rest, c, v =>
      if k = c then (c, v) :: rest else (k, w) :: setKey rest c v

/-- df.assign / df[c] = ...: computes the new column cell-wise from each row;
the column is appended to the schema when new, kept in place when it exists. -/
def DataFrame.assign (df : DataFrame) (c : String) (f : Row → JValue) : DataFrame :=
  ⟨insertCol df.cols c, df.rows.map (fun r => setKey r c (f r))⟩

/-- Numeric reading of a cell, used only as the sort key of sort_values. -/
def cellInt (c : String) (r : Row) : Int :=
  match r.lookup c with
  | some (.num n) => n
  | _ => 0

/-- Insertion into a descending-sorted list of rows, keeping the original
order among rows with equal keys (pandas sorts stably by default in this
comparison-based model; the sorted frame is discarded by the source anyway). -/
def insertRowDesc (key : Row → Int) (x : Row) : List Row → List Row
  | [] => [x]
  | y :: ys => if key y < key x then x :: y :: ys else y :: insertRowDesc key x ys

/-- Sorting rows in descending key order. -/
def sortRowsDesc (key : Row → Int) : List Row → List Row
  | [] => []
  | x :: xs => insertRowDesc key x (sortRowsDesc key xs)

/-- df.sort_values(c, ascending=False). -/
def DataFrame.sortValuesDesc (df : DataFrame) (c : String) : DataFrame :=
  ⟨df.cols, sortRowsDesc (cellInt c) df.rows⟩

/-- response[k] on a JSON mapping: KeyError when the key is absent, a type
error when the value is not a mapping. -/
def JValue.getKey : JValue → String → Except PyErr JValue
  | .obj fs, k =>
      match fs.lookup k with
      | some v => .ok v
      | none => .error (.keyError k)
  | _, _ => .error (.other "response is not a mapping")

/-- Substring test on character lists (the Python expression needle in hay). -/
def charsPrefixOf : List Char → List Char → Bool
  | [], _ => true
  | _ :: _, [] => false
  | a :: as, b :: bs => a = b && charsPrefixOf as bs

/-- True when the needle appears as a contiguous substring of the haystack. -/
def charsInfixOf (needle : List Char) : List Char → Bool
  | [] => charsPrefixOf needle []
  | b :: bs => charsPrefixOf needle (b :: bs) || charsInfixOf needle bs

/-- The test "statistics" in col of get_most_popular_videos, line 81. -/
def containsStatistics (c : String) : Bool :=
  charsInfixOf "statistics".toList c.toList

/-- The columns dropped by get_video_categories, line 31. -/
def catDropCols : List String := ["kind", "etag", "snippet.channelId"]

/-- The rename mapping of get_video_categories, line 34. -/
def catRenameMap : List (String × String) :=
  [("snippet.title", "category_title"), ("snippet.assignable", "assignable")]

/-- get_video_categories (youtubecustom.py lines 5-39). The request.execute()
call is modelled by the response argument; no exception is caught, so any
failure of the client or of the reshaping propagates in the Except monad. -/
def get_video_categories (region_code : String) (response : Except PyErr JValue) :
    Except PyErr DataFrame :=
  match response with
  | .error e => .error e
  | .ok r =>
    match r.getKey "items" with
    | .error e => .error e
    | .ok items =>
      match jsonNormalize items with
      | .error e => .error e
      | .ok df0 =>
        match df0.drop catDropCols with
        | .error e => .error e
        | .ok df1 =>
          .ok ((df1.rename catRenameMap).assign "region_code" (fun _ => .str region_code))

/-- The fixed column list selected by get_most_popular_videos, lines 77-78. -/
def popFixedCols : List String :=
  ["id", "snippet.publishedAt", "snippet.channelTitle", "snippet.localized.title",
   "snippet.localized.description", "contentDetails.duration"]

/-- The rename mapping of get_most_popular_videos, lines 90-98. -/
def popRenameMap : List (String × String) :=
  [("snippet.publishedAt", "published_at"),
   ("snippet.channelTitle", "channel_title"),
   ("snippet.localized.title", "title"),
   ("snippet.localized.description", "description"),
   ("contentDetails.duration", "duration"),
   ("statistics.viewCount", "view_count"),
   ("statistics.likeCount", "like_count"),
   ("statistics.favoriteCount", "favorite_count"),
   ("statistics.commentCount", "comment_count")]

/-- The value stamped into the video_category_id column: the Python argument
is either a string or None. -/
def optToJ : Option String → JValue
  | some s => .str s
  | none => .null

/-- The columns dropped by get_most_popular_videos, line 75. -/
def popDropCols : List String := ["etag", "kind", "snippet.channelId"]

/-- The frame of get_most_popular_videos after pd.json_normalize and the drop
of etag, kind and snippet.channelId (lines 72-75), before column selection. -/
def popPrepared (response : Except PyErr JValue) : Except PyErr DataFrame :=
  match response with
  | .error e => .error e
  | .ok r =>
    match r.getKey "items" with
    | .error e => .error e
    | .ok items =>
      match jsonNormalize items with
      | .error e => .error e
      | .ok df0 => df0.drop popDropCols

/-- The body of the try block of get_most_popular_videos (lines 62-103):
request, normalize, drop, dynamic statistics-column selection, rename, and
stamping of region_code and video_category_id. -/
def popBody (region_code : String) (response : Except PyErr JValue)
    (video_category_id : Option String) : Except PyErr DataFrame :=
  match popPrepared response with
  | .error e => .error e
  | .ok df1 =>
    let statistics_columns := df1.cols.filter containsStatistics
    let selected_columns := popFixedCols ++ statistics_columns
    match df1.select selected_columns with
    | .error e => .error e
    | .ok df2 =>
      let df3 := df2.rename popRenameMap
      let df4 := df3.assign "region_code" (fun _ => .str region_code)
      .ok (df4.assign "video_category_id" (fun _ => optToJ video_category_id))

/-- get_most_popular_videos (youtubecustom.py lines 41-110). The blanket
except Exception turns any failure into pd.DataFrame(); verbose only controls
a diagnostic print and max_results only shapes the request, so neither affects
the returned value. -/
def get_most_popular_videos (region_code : String) (response : Except PyErr JValue)
    (video_category_id : Option String := none) (max_results : Nat := 50)
    (verbose : Bool := false) : DataFrame :=
  match popBody region_code response video_category_id with
  | .ok df => df
  | .error _ => DataFrame.empty

/-- The rename mapping of get_top_level_comments, lines 136-138. -/
def commentRenameMap : List (String × String) :=
  [("id", "comment_id"),
   ("snippet.topLevelComment.snippet.likeCount", "like_count"),
   ("snippet.topLevelComment.snippet.textDisplay", "comment_text")]

/-- selected_cols of get_top_level_comments (lines 140-143): the base columns,
plus replies.comments appended when that column is present. -/
def commentSelectedCols (cols : List String) : List String :=
  if cols.contains "replies.comments" then
    ["comment_id", "like_count", "comment_text", "replies.comments"]
  else
    ["comment_id", "like_count", "comment_text"]

/-- The lambda of line 149: the length of the replies.comments cell when it is
a list, 0 otherwise (a NaN cell, modelled by a missing key, is not a list). -/
def numReplies (r : Row) : JValue :=
  match r.lookup "replies.comments" with
  | some (.list ys) => .num ys.length
  | _ => .num 0

/-- The assign(number_replies=...) step of line 149, applied to the frame that
already carries video_id. -/
def deriveNumberReplies (df : DataFrame) : DataFrame :=
  df.assign "number_replies" numReplies

/-- The test if "nextPageToken" in response of lines 152-155: the token value
when the key is present, absent otherwise. -/
def pageTokenOf : JValue → Option JValue
  | .obj fs => fs.lookup "nextPageToken"
  | _ => none

/-- The body of the try block of get_top_level_comments (lines 129-155):
request, normalize, rename, conditional selection of replies.comments,
video_id stamp, the derived-and-sorted frame of lines 147-150 whose value is
discarded, and extraction of nextPageToken. -/
def commentBody (video_id : String) (response : Except PyErr JValue) :
    Except PyErr (DataFrame × Option JValue) :=
  match response with
  | .error e => .error e
  | .ok r =>
    match r.getKey "items" with
    | .error e => .error e
    | .ok items =>
      match jsonNormalize items with
      | .error e => .error e
      | .ok df0 =>
        let df1 := df0.rename commentRenameMap
        let selected_cols := commentSelectedCols df1.cols
        match df1.select selected_cols with
        | .error e => .error e
        | .ok df2 =>
          let df_comments := df2.assign "video_id" (fun _ => .str video_id)
          let _discarded :=
            if df_comments.cols.contains "replies.comments" then
              some ((deriveNumberReplies df_comments).sortValuesDesc "number_replies")
            else none
          .ok (df_comments, pageTokenOf r)

/-- get_top_level_comments (youtubecustom.py lines 113-165): only HttpError is
caught (comments disabled), yielding the empty frame and an absent token; any
other exception propagates. -/
def get_top_level_comments (video_id : String) (response : Except PyErr JValue) :
    Except PyErr (DataFrame × Option JValue) :=
  match commentBody video_id response with
  | .error (.httpError _ _) => .ok (DataFrame.empty, none)
  | res => res

/-! Concrete sample responses, in the shape documented for the YouTube Data
API, together with the frames the three functions compute from them. They are
used to evaluate the verified properties on closed inputs. -/

def sampleReplies3 : List JValue := [.str "r1", .str "r2", .str "r3"]

def sampleReplies4 : List JValue := [.str "s1", .str "s2", .str "s3", .str "s4"]

def sampleCommentItem1 : JValue := .obj
  [("kind", .str "youtube#commentThread"),
   ("id", .str "c1"),
   ("snippet", .obj [("topLevelComment", .obj [("snippet", .obj
      [("likeCount", .num 5), ("textDisplay", .str "first")])])]),
   ("replies", .obj [("comments", .list sampleReplies3)])]

def sampleCommentItem2 : JValue := .obj
  [("kind", .str "youtube#commentThread"),
   ("id", .str "c2"),
   ("snippet", .obj [("topLevelComment", .obj [("snippet", .obj
      [("likeCount", .num 9), ("textDisplay", .str "second")])])]),
   ("replies", .obj [("comments", .list sampleReplies4)])]

def sampleCommentItem3 : JValue := .obj
  [("kind", .str "youtube#commentThread"),
   ("id", .str "c3"),
   ("snippet", .obj [("topLevelComment", .obj [("snippet", .obj
      [("likeCount", .num 2), ("textDisplay", .str "third")])])])]

def sampleCommentItems : List JValue :=
  [sampleCommentItem1, sampleCommentItem2, sampleCommentItem3]

def sampleCommentRespFields : List (String × JValue) :=
  [("items", .list sampleCommentItems), ("nextPageToken", .str "TOK")]

def sampleCommentResp : Except PyErr JValue := .ok (.obj sampleCommentRespFields)

def sampleCommentRow1 : Row :=
  [("comment_id", .str "c1"), ("like_count", .num 5), ("comment_text", .str "first"),
   ("replies.comments", .list sampleReplies3), ("video_id", .str "vid1")]

def sampleCommentRow2 : Row :=
  [("comment_id", .str "c2"), ("like_count", .num 9), ("comment_text", .str "second"),
   ("replies.comments", .list sampleReplies4), ("video_id", .str "vid1")]

def sampleCommentRow3 : Row :=
  [("comment_id", .str "c3"), ("like_count", .num 2), ("comment_text", .str "third"),
   ("video_id", .str "vid1")]

/-- The frame get_top_level_comments computes for vid1 on sampleCommentResp. -/
def sampleCommentDf : DataFrame :=
  ⟨["comment_id", "like_count", "comment_text", "replies.comments", "video_id"],
   [sampleCommentRow1, sampleCommentRow2, sampleCommentRow3]⟩

def sampleNoTokFields : List (String × JValue) :=
  [("items", .list [sampleCommentItem3])]

/-- The frame get_top_level_comments computes for vid2 on the tokenless
response: no item carries a replies field, so the column is absent. -/
def sampleNoTokDf : DataFrame :=
  ⟨["comment_id", "like_count", "comment_text", "video_id"],
   [[("comment_id", .str "c3"), ("like_count", .num 2), ("comment_text", .str "third"),
     ("video_id", .str "vid2")]]⟩

def samplePopItem : JValue := .obj
  [("kind", .str "youtube#video"),
   ("etag", .str "e1"),
   ("id", .str "v1"),
   ("snippet", .obj
     [("publishedAt", .str "2023-01-01T00:00:00Z"),
      ("channelId", .str "ch1"),
      ("channelTitle", .str "Chan"),
      ("localized", .obj [("title", .str "T"), ("description", .str "D")])]),
   ("contentDetails", .obj [("duration", .str "PT1M")]),
   ("statistics", .obj [("viewCount", .str "100")])]

def samplePopResp : Except PyErr JValue := .ok (.obj [("items", .list [samplePopItem])])

/-- The flattened and dropped frame popPrepared computes on samplePopResp:
the only statistics column of the response is statistics.viewCount. -/
def samplePopPrepared : DataFrame :=
  ⟨["id", "snippet.publishedAt", "snippet.channelTitle", "snippet.localized.title",
    "snippet.localized.description", "contentDetails.duration", "statistics.viewCount"],
   [[("id", .str "v1"), ("snippet.publishedAt", .str "2023-01-01T00:00:00Z"),
     ("snippet.channelTitle", .str "Chan"), ("snippet.localized.title", .str "T"),
     ("snippet.localized.description", .str "D"), ("contentDetails.duration", .str "PT1M"),
     ("statistics.viewCount", .str "100")]]⟩

/-- The frame get_most_popular_videos computes for GB / category 1 on
samplePopResp: no like_count column, since the response has no
statistics.likeCount field. -/
def samplePopDf : DataFrame :=
  ⟨["id", "published_at", "channel_title", "title", "description", "duration",
    "view_count", "region_code", "video_category_id"],
   [[("id", .str "v1"), ("published_at", .str "2023-01-01T00:00:00Z"),
     ("channel_title", .str "Chan"), ("title", .str "T"), ("description", .str "D"),
     ("duration", .str "PT1M"), ("view_count", .str "100"),
     ("region_code", .str "GB"), ("video_category_id", .str "1")]]⟩

def sampleCatItem1 : JValue := .obj
  [("kind", .str "youtube#videoCategory"),
   ("etag", .str "e"),
   ("id", .str "1"),
   ("snippet", .obj
     [("channelId", .str "ch"), ("title", .str "Film"), ("assignable", .boolean true)])]

def sampleCatItem2 : JValue := .obj
  [("kind", .str "youtube#videoCategory"),
   ("etag", .str "e"),
   ("id", .str "2"),
   ("snippet", .obj
     [("channelId", .str "ch"), ("title", .str "Music"), ("assignable", .boolean false)])]

def sampleCatItems : List JValue := [sampleCatItem1, sampleCatItem2]

def sampleCatFields : List (String × JValue) := [("items", .list sampleCatItems)]

def sampleCatRow1 : Row :=
  [("id", .str "1"), ("category_title", .str "Film"), ("assignable", .boolean true),
   ("region_code", .str "GB")]

/-- The frame get_video_categories computes for GB on the sample response. -/
def sampleCatDf : DataFrame :=
  ⟨["id", "category_title", "assignable", "region_code"],
   [sampleCatRow1,
    [("id", .str "2"), ("category_title", .str "Music"), ("assignable", .boolean false),
     ("region_code", .str "GB")]]⟩

/-! ### Basic lemmas about the embedded operations -/

theorem lookup_setKey_self (r : Row) (c : String) (v : JValue) :
    (setKey r c v).lookup c = some v := by
  induction r with
  | nil => simp [setKey, List.lookup]
  | cons p rest ih =>
      obtain ⟨k, w⟩ := p
      by_cases h : k = c
      · subst h
        simp [setKey, List.lookup]
      · have hb : (c == k) = false := beq_eq_false_iff_ne.mpr (Ne.symm h)
        simp [setKey, h, List.lookup, hb, ih]

theorem mem_insertCol {x c : String} {acc : List String} (h : x ∈ insertCol acc c) :
    x ∈ acc ∨ x = c := by
  unfold insertCol at h
  split at h
  · exact Or.inl h
  · rcases List.mem_append.mp h with h1 | h2
    · exact Or.inl h1
    · exact Or.inr (List.mem_singleton.mp h2)

theorem insertCol_not_mem {acc : List String} {c : String} (h : c ∉ acc) :
    insertCol acc c = acc ++ [c] := by
  unfold insertCol
  simp [h]

theorem lookup_mem {β : Type} {m : List (String × β)} {c : String} {v : β}
    (h : m.lookup c = some v) : (c, v) ∈ m := by
  induction m with
  | nil => simp [List.lookup] at h
  | cons p rest ih =>
      obtain ⟨k, w⟩ := p
      by_cases hk : c = k
      · subst hk
        simp [List.lookup] at h
        simp [h]
      · have hb : (c == k) = false := beq_eq_false_iff_ne.mpr hk
        simp [List.lookup, hb] at h
        exact List.mem_cons_of_mem _ (ih h)

theorem renameWith_cases (m : List (String × String)) (c : String) :
    renameWith m c = c ∨ (c, renameWith m c) ∈ m := by
  unfold renameWith
  cases h : m.lookup c with
  | none => exact Or.inl rfl
  | some v => exact Or.inr (lookup_mem h)

theorem mapExcept_ok_length {f : JValue → Except PyErr Row} {xs : List JValue}
    {rs : List Row} (h : mapExcept f xs = .ok rs) : rs.length = xs.length := by
  induction xs generalizing rs with
  | nil =>
      simp [mapExcept] at h
      simp [← h]
  | cons x xs ih =>
      unfold mapExcept at h
      cases hfx : f x with
      | error e => rw [hfx] at h; cases h
      | ok r =>
          rw [hfx] at h
          cases hrec : mapExcept f xs with
          | error e => rw [hrec] at h; cases h
          | ok rs2 =>
              rw [hrec] at h
              cases h
              simp [ih hrec]

theorem mapExcept_ok_get {f : JValue → Except PyErr Row} {xs : List JValue}
    {rs : List Row} (h : mapExcept f xs = .ok rs) (i : Nat) (hi : i < xs.length) :
    ∃ hj : i < rs.length, f (xs.get ⟨i, hi⟩) = .ok (rs.get ⟨i, hj⟩) := by
  induction xs generalizing rs i with
  | nil => simp at hi
  | cons x xs ih =>
      unfold mapExcept at h
      cases hfx : f x with
      | error e => rw [hfx] at h; cases h
      | ok r =>
          rw [hfx] at h
          cases hrec : mapExcept f xs with
          | error e => rw [hrec] at h; cases h
          | ok rs2 =>
              rw [hrec] at h
              cases h
              cases i with
              | zero => exact ⟨by simp, by simpa using hfx⟩
              | succ n =>
                  have hn : n < xs.length := by simpa using hi
                  obtain ⟨hj, hf⟩ := ih hrec n hn
                  exact ⟨by simpa using hj, by simpa using hf⟩

theorem normalizeItem_ok {v : JValue} {r : Row} (h : normalizeItem v = .ok r) :
    ∃ gs, v = JValue.obj gs ∧ r = flattenFields gs := by
  cases v with
  | obj gs =>
      refine ⟨gs, rfl, ?_⟩
      simpa [normalizeItem] using h.symm
  | str s => simp [normalizeItem] at h
  | num n => simp [normalizeItem] at h
  | boolean b => simp [normalizeItem] at h
  | null => simp [normalizeItem] at h
  | list xs => simp [normalizeItem] at h

theorem getKey_ok_inv {r : JValue} {k : String} {v : JValue}
    (h : r.getKey k = .ok v) : ∃ fs, r = JValue.obj fs ∧ fs.lookup k = some v := by
  cases r with
  | obj fs =>
      refine ⟨fs, rfl, ?_⟩
      simp only [JValue.getKey] at h
      cases hl : fs.lookup k with
      | none => rw [hl] at h; cases h
      | some w => rw [hl] at h; cases h; rfl
  | str s => simp [JValue.getKey] at h
  | num n => simp [JValue.getKey] at h
  | boolean b => simp [JValue.getKey] at h
  | null => simp [JValue.getKey] at h
  | list xs => simp [JValue.getKey] at h

theorem jsonNormalize_ok_inv {v : JValue} {df : DataFrame}
    (h : jsonNormalize v = .ok df) :
    ∃ items rows, v = JValue.list items ∧ mapExcept normalizeItem items = .ok rows ∧
      df = ⟨unionCols rows, rows⟩ := by
  cases v with
  | list items =>
      simp only [jsonNormalize] at h
      cases hm : mapExcept normalizeItem items with
      | error e => rw [hm] at h; cases h
      | ok rows => rw [hm] at h; cases h; exact ⟨items, rows, rfl, hm, rfl⟩
  | str s => simp [jsonNormalize] at h
  | num n => simp [jsonNormalize] at h
  | boolean b => simp [jsonNormalize] at h
  | null => simp [jsonNormalize] at h
  | obj fs => simp [jsonNormalize] at h

theorem select_ok_inv {df : DataFrame} {cs : List String} {d : DataFrame}
    (h : df.select cs = .ok d) : d = ⟨cs, df.rows.map (selectRow cs)⟩ := by
  unfold DataFrame.select at h
  split at h
  · cases h; rfl
  · cases h

theorem drop_ok_inv {df : DataFrame} {cs : List String} {d : DataFrame}
    (h : df.drop cs = .ok d) :
    d = ⟨df.cols.filter (fun c => !cs.contains c),
         df.rows.map (fun r => r.filter (fun p => !cs.contains p.1))⟩ := by
  unfold DataFrame.drop at h
  split at h
  · cases h; rfl
  · cases h

theorem getKey_not_http (r : JValue) (k : String) (s : Nat) (c : String) :
    r.getKey k ≠ .error (.httpError s c) := by
  cases r with
  | obj fs =>
      simp only [JValue.getKey]
      cases hl : fs.lookup k with
      | none => simp
      | some w => simp
  | str a => simp [JValue.getKey]
  | num a => simp [JValue.getKey]
  | boolean a => simp [JValue.getKey]
  | null => simp [JValue.getKey]
  | list a => simp [JValue.getKey]

theorem mapExcept_normalize_not_http (xs : List JValue) (s : Nat) (c : String) :
    mapExcept normalizeItem xs ≠ .error (.httpError s c) := by
  induction xs with
  | nil => simp [mapExcept]
  | cons x xs ih =>
      simp only [mapExcept]
      cases hx : normalizeItem x with
      | error e =>
          have he : ∃ msg, e = PyErr.other msg := by
            cases x <;> simp [normalizeItem] at hx <;> simp [← hx]
          obtain ⟨msg, rfl⟩ := he
          simp
      | ok r =>
          cases hm : mapExcept normalizeItem xs with
          | error e =>
              intro hcon
              injection hcon with h1
              rw [h1] at hm
              exact ih hm
          | ok rows => simp
  
theorem jsonNormalize_not_http (v : JValue) (s : Nat) (c : String) :
    jsonNormalize v ≠ .error (.httpError s c) := by
  cases v with
  | list items =>
      simp only [jsonNormalize]
      cases hm : mapExcept normalizeItem items with
      | error e =>
          intro hcon
          injection hcon with h1
          rw [h1] at hm
          exact mapExcept_normalize_not_http items s c hm
      | ok rows => simp
  | str a => simp [jsonNormalize]
  | num a => simp [jsonNormalize]
  | boolean a => simp [jsonNormalize]
  | null => simp [jsonNormalize]
  | obj fs => simp [jsonNormalize]

theorem select_not_http (df : DataFrame) (cs : List String) (s : Nat) (c : String) :
    df.select cs ≠ .error (.httpError s c) := by
  unfold DataFrame.select
  split <;> simp

/-- The selected column list that the success path of commentBody feeds to the
projection, expressed from the normalized rows. -/
def commentColsOf (rows : List Row) : List String :=
  commentSelectedCols ((unionCols rows).map (renameWith commentRenameMap))

theorem commentBody_ok_inv {v : String} {resp : Except PyErr JValue}
    {df : DataFrame} {tok : Option JValue}
    (h : commentBody v resp = .ok (df, tok)) :
    ∃ fs items rows,
      resp = .ok (JValue.obj fs) ∧
      fs.lookup "items" = some (JValue.list items) ∧
      mapExcept normalizeItem items = .ok rows ∧
      df.cols = insertCol (commentColsOf rows) "video_id" ∧
      df.rows = rows.map (fun r =>
        setKey (selectRow (commentColsOf rows) (renameRow commentRenameMap r))
          "video_id" (JValue.str v)) ∧
      tok = fs.lookup "nextPageToken" := by
  cases resp with
  | error e => simp [commentBody] at h
  | ok r =>
    simp only [commentBody] at h
    split at h
    next e hg => cases h
    next items hg =>
      obtain ⟨fs, rfl, hlk⟩ := getKey_ok_inv hg
      split at h
      next e hn => cases h
      next df0 hn =>
        obtain ⟨its, rows, hite, hmap, hdf0⟩ := jsonNormalize_ok_inv hn
        subst hite
        subst hdf0
        split at h
        next e hs => cases h
        next df2 hs =>
          have h2 := select_ok_inv hs
          subst h2
          cases h
          refine ⟨fs, its, rows, rfl, hlk, hmap, ?_, ?_, by simp [pageTokenOf]⟩
          · rfl
          · simp [DataFrame.assign, DataFrame.rename, List.map_map]
            intro a ha
            rfl

theorem commentBody_ok_not_http {v : String} {r : JValue} {s : Nat} {c : String}
    (h : commentBody v (.ok r) = .error (.httpError s c)) : False := by
  simp only [commentBody] at h
  split at h
  next e hg =>
      injection h with h1
      rw [h1] at hg
      exact getKey_not_http r "items" s c hg
  next items hg =>
      split at h
      next e hn =>
          injection h with h1
          rw [h1] at hn
          exact jsonNormalize_not_http items s c hn
      next df0 hn =>
          split at h
          next e hs =>
              injection h with h1
              rw [h1] at hs
              exact select_not_http _ _ s c hs
          next df2 hs => cases h

theorem getTop_ok_cases {v : String} {resp : Except PyErr JValue}
    {df : DataFrame} {tok : Option JValue}
    (h : get_top_level_comments v resp = .ok (df, tok)) :
    commentBody v resp = .ok (df, tok) ∨
    (df = DataFrame.empty ∧ tok = none ∧
      ∃ s c, commentBody v resp = .error (.httpError s c)) := by
  unfold get_top_level_comments at h
  split at h
  next s c hb =>
      cases h
      exact Or.inr ⟨rfl, rfl, s, c, hb⟩
  next res hb =>
      rw [← h]
      exact Or.inl rfl

theorem popBody_ok_inv {rc : String} {resp : Except PyErr JValue} {cat : Option String}
    {df : DataFrame} (h : popBody rc resp cat = .ok df) :
    ∃ d1, popPrepared resp = .ok d1 ∧
      df.cols = insertCol (insertCol ((popFixedCols ++ d1.cols.filter containsStatistics).map
          (renameWith popRenameMap)) "region_code") "video_category_id" ∧
      df.rows = d1.rows.map (fun r =>
        setKey (setKey (renameRow popRenameMap
            (selectRow (popFixedCols ++ d1.cols.filter containsStatistics) r))
          "region_code" (JValue.str rc)) "video_category_id" (optToJ cat)) := by
  unfold popBody at h
  split at h
  next e hp => cases h
  next d1 hp =>
    dsimp only at h
    split at h
    next e hs => cases h
    next df2 hs =>
      have h2 := select_ok_inv hs
      subst h2
      cases h
      refine ⟨d1, hp, rfl, ?_⟩
      simp [DataFrame.assign, DataFrame.rename, List.map_map]

theorem get_video_categories_ok_inv {rc : String} {resp : Except PyErr JValue}
    {df : DataFrame} (h : get_video_categories rc resp = .ok df) :
    ∃ fs items rows,
      resp = .ok (JValue.obj fs) ∧
      fs.lookup "items" = some (JValue.list items) ∧
      mapExcept normalizeItem items = .ok rows ∧
      df.cols = insertCol (((unionCols rows).filter (fun c => !catDropCols.contains c)).map
          (renameWith catRenameMap)) "region_code" ∧
      df.rows = rows.map (fun r =>
        setKey (renameRow catRenameMap (r.filter (fun p => !catDropCols.contains p.1)))
          "region_code" (JValue.str rc)) := by
  cases resp with
  | error e => simp [get_video_categories] at h
  | ok r =>
    simp only [get_video_categories] at h
    split at h
    next e hg => cases h
    next items hg =>
      obtain ⟨fs, rfl, hlk⟩ := getKey_ok_inv hg
      split at h
      next e hn => cases h
      next df0 hn =>
        obtain ⟨its, rows, hite, hmap, hdf0⟩ := jsonNormalize_ok_inv hn
        subst hite
        subst hdf0
        split at h
        next e hd => cases h
        next df1 hd =>
          have h2 := drop_ok_inv hd
          subst h2
          cases h
          refine ⟨fs, its, rows, rfl, hlk, hmap, rfl, ?_⟩
          simp [DataFrame.assign, DataFrame.rename, List.map_map]

theorem renamed_filter_not_mem {m : List (String × String)} {dropped : List String}
    {cols : List String} {tgt : String}
    (h1 : dropped.contains tgt = true)
    (h2 : ∀ p ∈ m, p.2 ≠ tgt) :
    tgt ∉ (cols.filter (fun c => !dropped.contains c)).map (renameWith m) := by
  intro hmem
  obtain ⟨c, hc, hren⟩ := List.mem_map.mp hmem
  obtain ⟨hcm, hnd⟩ := List.mem_filter.mp hc
  rcases renameWith_cases m c with he | hin
  · have hce : c = tgt := he.symm.trans hren
    subst hce
    rw [h1] at hnd
    cases hnd
  · rw [hren] at hin
    exact h2 _ hin rfl

theorem pop_selected_rename_not_mem {d1cols : List String} {tgt : String}
    (h1 : containsStatistics tgt = false)
    (h2 : ∀ p ∈ popRenameMap, p.2 ≠ tgt)
    (h3 : ∀ d ∈ popFixedCols, renameWith popRenameMap d ≠ tgt) :
    tgt ∉ (popFixedCols ++ d1cols.filter containsStatistics).map (renameWith popRenameMap) := by
  intro hmem
  obtain ⟨c, hc, hren⟩ := List.mem_map.mp hmem
  rcases List.mem_append.mp hc with hf | hs
  · exact h3 c hf hren
  · obtain ⟨hcm, hstat⟩ := List.mem_filter.mp hs
    rcases renameWith_cases popRenameMap c with he | hin
    · have hce : c = tgt := he.symm.trans hren
      subst hce
      rw [hstat] at h1
      cases h1
    · rw [hren] at hin
      exact h2 _ hin rfl

theorem pop_like_count_origin {d1cols : List String}
    (hmem : "like_count" ∈ (popFixedCols ++ d1cols.filter containsStatistics).map
        (renameWith popRenameMap)) :
    "statistics.likeCount" ∈ d1cols := by
  obtain ⟨c, hc, hren⟩ := List.mem_map.mp hmem
  rcases List.mem_append.mp hc with hf | hs
  · exfalso
    fin_cases hf <;> exact absurd hren (by decide)
  · obtain ⟨hcm, hstat⟩ := List.mem_filter.mp hs
    rcases renameWith_cases popRenameMap c with he | hin
    · have hce : c = "like_count" := he.symm.trans hren
      subst hce
      exact absurd hstat (by decide)
    · rw [hren] at hin
      have hco : c = "statistics.likeCount" := by
        simp [popRenameMap] at hin
        exact hin
      subst hco
      exact hcm

/-! ### Claim theorems -/

/-- C2: for every input, if any step of PopularVideoLister's request or
reshaping raises an exception, get_most_popular_videos returns the empty
table (zero rows) and never propagates the exception; in particular a client
handle that raises yields the empty table. -/
theorem popularVideoLister_never_raises (rc : String) (resp : Except PyErr JValue)
    (cat : Option String) (mr : Nat) (vb : Bool) (e : PyErr)
    (h : popBody rc resp cat = .error e) :
    get_most_popular_videos rc resp cat mr vb = DataFrame.empty ∧
    get_most_popular_videos rc (.error e) cat mr vb = DataFrame.empty := by
  constructor
  · unfold get_most_popular_videos
    rw [h]
  · unfold get_most_popular_videos
    have hb : popBody rc (.error e) cat = .error e := rfl
    rw [hb]

/-- C3: get_top_level_comments suppresses exactly the platform's structured
API error (HttpError), returning the empty table and an absent token; an
exception of any other class propagates unchanged to the caller. -/
theorem commentLister_error_policy (v : String) (resp : Except PyErr JValue) :
    (∀ s c, commentBody v resp = .error (.httpError s c) →
        get_top_level_comments v resp = .ok (DataFrame.empty, none)) ∧
    (∀ e, commentBody v resp = .error e → (∀ s c, e ≠ PyErr.httpError s c) →
        get_top_level_comments v resp = .error e) := by
  constructor
  · intro s c hb
    unfold get_top_level_comments
    rw [hb]
  · intro e hb hne
    unfold get_top_level_comments
    rw [hb]
    cases e with
    | httpError s c => exact absurd rfl (hne s c)
    | keyError k => rfl
    | other m => rfl

/-- C9: the empty table returned on the error path of get_most_popular_videos
(any exception) and of get_top_level_comments (HttpError) has zero columns,
so it carries no region_code, video_category_id or video_id column, unlike
the success-path schema. -/
theorem errorPath_empty_schema (rc v : String) (resp1 resp2 : Except PyErr JValue)
    (cat : Option String) (mr : Nat) (vb : Bool) (e : PyErr) (s : Nat) (c : String)
    (h1 : popBody rc resp1 cat = .error e)
    (h2 : commentBody v resp2 = .error (.httpError s c)) :
    (get_most_popular_videos rc resp1 cat mr vb).cols = [] ∧
    (get_most_popular_videos rc resp1 cat mr vb).rows = [] ∧
    "region_code" ∉ (get_most_popular_videos rc resp1 cat mr vb).cols ∧
    "video_category_id" ∉ (get_most_popular_videos rc resp1 cat mr vb).cols ∧
    get_top_level_comments v resp2 = .ok (DataFrame.empty, none) ∧
    DataFrame.empty.cols = [] ∧ "video_id" ∉ DataFrame.empty.cols := by
  have hm : get_most_popular_videos rc resp1 cat mr vb = DataFrame.empty := by
    unfold get_most_popular_videos
    rw [h1]
  have hc : get_top_level_comments v resp2 = .ok (DataFrame.empty, none) := by
    unfold get_top_level_comments
    rw [h2]
  rw [hm]
  exact ⟨rfl, rfl, by simp [DataFrame.empty], by simp [DataFrame.empty], hc, rfl,
    by simp [DataFrame.empty]⟩

/-- C8: every row of the table returned by a successful get_top_level_comments
call carries a video_id column equal to the input video id. -/
theorem commentLister_video_id_stamp (v : String) (resp : Except PyErr JValue)
    (df : DataFrame) (tok : Option JValue)
    (h : get_top_level_comments v resp = .ok (df, tok)) :
    ∀ r ∈ df.rows, r.lookup "video_id" = some (JValue.str v) := by
  intro r hr
  rcases getTop_ok_cases h with hb | ⟨hdf, htok, s, c, hb⟩
  · obtain ⟨fs, items, rows, hresp, hlk, hmap, hcols, hrows, htok2⟩ := commentBody_ok_inv hb
    rw [hrows] at hr
    obtain ⟨a, ha, rfl⟩ := List.mem_map.mp hr
    exact lookup_setKey_self _ _ _
  · subst hdf
    simp [DataFrame.empty] at hr

/-- C6: on a successful get_top_level_comments call, the returned continuation
token is exactly the value of the response's nextPageToken field when that
key is present, and absent when the key is missing. -/
theorem commentLister_next_page_token (v : String) (fs : List (String × JValue))
    (df : DataFrame) (tok : Option JValue)
    (h : get_top_level_comments v (.ok (.obj fs)) = .ok (df, tok)) :
    tok = fs.lookup "nextPageToken" := by
  rcases getTop_ok_cases h with hb | ⟨hdf, htok, s, c, hb⟩
  · obtain ⟨fs2, items, rows, hresp, hlk, hmap, hcols, hrows, htok2⟩ := commentBody_ok_inv hb
    injection hresp with h1
    injection h1 with h2
    subst h2
    exact htok2
  · exact absurd hb (fun hx => commentBody_ok_not_http hx)

/-- C1: in the frame derived on line 149 from a successful
get_top_level_comments call whose table carries the replies column, a row
whose replies.comments cell is a list of length 3 gets number_replies = 3,
and a row whose replies.comments cell is not a list gets number_replies = 0. -/
theorem commentLister_number_replies (v : String) (resp : Except PyErr JValue)
    (df : DataFrame) (tok : Option JValue)
    (hcall : get_top_level_comments v resp = .ok (df, tok))
    (hrep : "replies.comments" ∈ df.cols)
    (r : Row) (hr : r ∈ df.rows) :
    setKey r "number_replies" (numReplies r) ∈ (deriveNumberReplies df).rows ∧
    (∀ ys, r.lookup "replies.comments" = some (JValue.list ys) → ys.length = 3 →
        (setKey r "number_replies" (numReplies r)).lookup "number_replies"
          = some (JValue.num 3)) ∧
    ((∀ ys, r.lookup "replies.comments" ≠ some (JValue.list ys)) →
        (setKey r "number_replies" (numReplies r)).lookup "number_replies"
          = some (JValue.num 0)) := by
  refine ⟨?_, ?_, ?_⟩
  · simp only [deriveNumberReplies, DataFrame.assign]
    exact List.mem_map_of_mem _ hr
  · intro ys hys h3
    rw [lookup_setKey_self]
    simp [numReplies, hys, h3]
  · intro hny
    rw [lookup_setKey_self]
    unfold numReplies
    cases hl : r.lookup "replies.comments" with
    | none => rfl
    | some w =>
        cases w with
        | list ys => exact absurd hl (hny ys)
        | str a => rfl
        | num a => rfl
        | boolean a => rfl
        | null => rfl
        | obj a => rfl

/-- C10: a table returned by get_top_level_comments never carries a
number_replies column (the derived frame is discarded), and on a response
that the client delivered the columns are exactly comment_id, like_count,
comment_text, video_id, with replies.comments inserted before video_id
exactly when present in the response. -/
theorem commentLister_no_number_replies (v : String) (resp : Except PyErr JValue)
    (df : DataFrame) (tok : Option JValue)
    (h : get_top_level_comments v resp = .ok (df, tok)) :
    "number_replies" ∉ df.cols ∧
    (∀ r, resp = .ok r →
      df.cols = ["comment_id", "like_count", "comment_text", "video_id"] ∨
      df.cols = ["comment_id", "like_count", "comment_text", "replies.comments",
        "video_id"]) := by
  rcases getTop_ok_cases h with hb | ⟨hdf, htok, s, c, hb⟩
  · obtain ⟨fs, items, rows, hresp, hlk, hmap, hcols, hrows, htok2⟩ := commentBody_ok_inv hb
    have hcases : df.cols = ["comment_id", "like_count", "comment_text", "video_id"] ∨
        df.cols = ["comment_id", "like_count", "comment_text", "replies.comments",
          "video_id"] := by
      rw [hcols]
      unfold commentColsOf
      cases hrc : ((unionCols rows).map (renameWith commentRenameMap)).contains
          "replies.comments" with
      | true =>
          right
          simp only [commentSelectedCols, hrc, if_true]
          decide
      | false =>
          left
          simp only [commentSelectedCols, hrc, Bool.false_eq_true, if_false]
          decide
    constructor
    · rcases hcases with hc4 | hc5
      · rw [hc4]; decide
      · rw [hc5]; decide
    · intro r hr
      exact hcases
  · subst hdf
    constructor
    · simp [DataFrame.empty]
    · intro r hr
      rw [hr] at hb
      exact absurd hb (fun hx => commentBody_ok_not_http hx)

/-- C5: on a well-formed category response with N items, get_video_categories
returns N rows, stamps region_code with the input region code on every row,
and its schema contains none of kind, etag, snippet.channelId. -/
theorem categoryLister_rows_and_schema (rc : String) (fs : List (String × JValue))
    (items : List JValue) (df : DataFrame)
    (hitems : fs.lookup "items" = some (JValue.list items))
    (h : get_video_categories rc (.ok (.obj fs)) = .ok df) :
    df.rows.length = items.length ∧
    (∀ r ∈ df.rows, r.lookup "region_code" = some (JValue.str rc)) ∧
    "kind" ∉ df.cols ∧ "etag" ∉ df.cols ∧ "snippet.channelId" ∉ df.cols := by
  obtain ⟨fs2, its, rows, hresp, hlk, hmap, hcols, hrows⟩ := get_video_categories_ok_inv h
  injection hresp with h1
  injection h1 with h2
  subst h2
  rw [hitems] at hlk
  injection hlk with h3
  injection h3 with h4
  subst h4
  refine ⟨?_, ?_, ?_, ?_, ?_⟩
  · rw [hrows]
    simp [mapExcept_ok_length hmap]
  · intro r hr
    rw [hrows] at hr
    obtain ⟨a, ha, rfl⟩ := List.mem_map.mp hr
    exact lookup_setKey_self _ _ _
  · rw [hcols]
    intro hmem
    rcases mem_insertCol hmem with hM | hEq
    · exact renamed_filter_not_mem (by decide) (by decide) hM
    · exact absurd hEq (by decide)
  · rw [hcols]
    intro hmem
    rcases mem_insertCol hmem with hM | hEq
    · exact renamed_filter_not_mem (by decide) (by decide) hM
    · exact absurd hEq (by decide)
  · rw [hcols]
    intro hmem
    rcases mem_insertCol hmem with hM | hEq
    · exact renamed_filter_not_mem (by decide) (by decide) hM
    · exact absurd hEq (by decide)

/-- C4: the schema of a successful get_most_popular_videos result is exactly
the fixed column set plus every column of the flattened-and-dropped response
containing the substring statistics, under the human-readable renames, plus
the stamped region_code and video_category_id columns; and like_count is
present only if the raw response had a statistics.likeCount column. -/
theorem popularVideoLister_schema (rc : String) (resp : Except PyErr JValue)
    (cat : Option String) (mr : Nat) (vb : Bool) (d1 df : DataFrame)
    (hprep : popPrepared resp = .ok d1)
    (hbody : popBody rc resp cat = .ok df) :
    get_most_popular_videos rc resp cat mr vb = df ∧
    df.cols = (popFixedCols ++ d1.cols.filter containsStatistics).map
        (renameWith popRenameMap) ++ ["region_code", "video_category_id"] ∧
    ("statistics.likeCount" ∉ d1.cols → "like_count" ∉ df.cols) := by
  obtain ⟨d1b, hprep2, hcols, hrows⟩ := popBody_ok_inv hbody
  rw [hprep] at hprep2
  injection hprep2 with hd
  subst hd
  have hrc : "region_code" ∉ (popFixedCols ++ d1.cols.filter containsStatistics).map
      (renameWith popRenameMap) :=
    pop_selected_rename_not_mem (by decide) (by decide) (by decide)
  have hvc : "video_category_id" ∉ (popFixedCols ++ d1.cols.filter containsStatistics).map
      (renameWith popRenameMap) :=
    pop_selected_rename_not_mem (by decide) (by decide) (by decide)
  have hcols2 : df.cols = (popFixedCols ++ d1.cols.filter containsStatistics).map
      (renameWith popRenameMap) ++ ["region_code", "video_category_id"] := by
    rw [hcols]
    rw [insertCol_not_mem hrc]
    rw [insertCol_not_mem (by
      intro hmem
      rcases List.mem_append.mp hmem with hM | hT
      · exact hvc hM
      · exact absurd (List.mem_singleton.mp hT) (by decide))]
    simp
  refine ⟨?_, hcols2, ?_⟩
  · unfold get_most_popular_videos
    rw [hbody]
  · intro hnl hmem
    rw [hcols2] at hmem
    rcases List.mem_append.mp hmem with hM | hT
    · exact hnl (pop_like_count_origin hM)
    · exact absurd hT (by decide)

/-- C7: the rows of a successful get_top_level_comments table appear in the
order of the items of the response: the i-th row is computed from the i-th
item, with no reordering by reply count, even when the replies column is
present. -/
theorem commentLister_row_order (v : String) (fs : List (String × JValue))
    (items : List JValue) (df : DataFrame) (tok : Option JValue)
    (hitems : fs.lookup "items" = some (JValue.list items))
    (h : get_top_level_comments v (.ok (.obj fs)) = .ok (df, tok)) :
    df.rows.length = items.length ∧
    ∃ cs, ∀ i (hi : i < items.length) (hj : i < df.rows.length),
      ∃ gs, items.get ⟨i, hi⟩ = JValue.obj gs ∧
        df.rows.get ⟨i, hj⟩ =
          setKey (selectRow cs (renameRow commentRenameMap (flattenFields gs)))
            "video_id" (JValue.str v) := by
  rcases getTop_ok_cases h with hb | ⟨hdf, htok, s, c, hb⟩
  · obtain ⟨fs2, its, rows, hresp, hlk, hmap, hcols, hrows, htok2⟩ := commentBody_ok_inv hb
    injection hresp with h1
    injection h1 with h2
    subst h2
    rw [hitems] at hlk
    injection hlk with h3
    injection h3 with h4
    subst h4
    obtain ⟨dcols, drows⟩ := df
    dsimp only at hrows ⊢
    subst hrows
    have hlen : (rows.map (fun r =>
        setKey (selectRow (commentColsOf rows) (renameRow commentRenameMap r))
          "video_id" (JValue.str v))).length = items.length := by
      simp [mapExcept_ok_length hmap]
    refine ⟨hlen, commentColsOf rows, ?_⟩
    intro i hi hj
    obtain ⟨hj2, hfi⟩ := mapExcept_ok_get hmap i hi
    obtain ⟨gs, hgs, hflat⟩ := normalizeItem_ok hfi
    refine ⟨gs, hgs, ?_⟩
    rw [List.get_eq_getElem] at hflat ⊢
    simp only [List.getElem_map]
    rw [hflat]
  · exact absurd hb (fun hx => commentBody_ok_not_http hx)

/-! ### Witnesses: the claim theorems evaluated on the concrete samples -/

/-- C1 witness: on the sample call, the derived frame gives the length-3
replies row number_replies = 3 and the repliesless row number_replies = 0. -/
theorem commentLister_number_replies_witness :
    (setKey sampleCommentRow1 "number_replies" (numReplies sampleCommentRow1)).lookup
        "number_replies" = some (JValue.num 3) ∧
    (setKey sampleCommentRow3 "number_replies" (numReplies sampleCommentRow3)).lookup
        "number_replies" = some (JValue.num 0) := by
  have h1 := commentLister_number_replies "vid1" sampleCommentResp sampleCommentDf
      (some (.str "TOK")) rfl (by decide) sampleCommentRow1 (List.mem_cons_self _ _)
  have h3 := commentLister_number_replies "vid1" sampleCommentResp sampleCommentDf
      (some (.str "TOK")) rfl (by decide) sampleCommentRow3
      (List.mem_cons_of_mem _ (List.mem_cons_of_mem _ (List.mem_cons_self _ _)))
  exact ⟨h1.2.1 sampleReplies3 rfl rfl, h3.2.2 (fun ys hys => Option.noConfusion hys)⟩

/-- C2 witness: a response without an items key and a raising client both
yield the empty table. -/
theorem popularVideoLister_never_raises_witness :
    get_most_popular_videos "GB" (.ok (.obj [])) none 50 false = DataFrame.empty ∧
    get_most_popular_videos "GB" (.error (.keyError "items")) none 50 false
      = DataFrame.empty :=
  popularVideoLister_never_raises "GB" (.ok (.obj [])) none 50 false (.keyError "items") rfl

/-- C3 witness: an HttpError from the client is suppressed into the empty
result, while a network error propagates. -/
theorem commentLister_error_policy_witness :
    get_top_level_comments "vid0" (.error (.httpError 403 "disabled"))
      = .ok (DataFrame.empty, none) ∧
    get_top_level_comments "vid0" (.error (.other "network"))
      = .error (.other "network") :=
  ⟨(commentLister_error_policy "vid0" (.error (.httpError 403 "disabled"))).1
      403 "disabled" rfl,
   (commentLister_error_policy "vid0" (.error (.other "network"))).2
      (.other "network") rfl (fun s c hx => PyErr.noConfusion hx)⟩

/-- C4 witness: the sample response carrying only statistics.viewCount
yields exactly the fixed renamed schema plus view_count and the stamps, and
in particular no like_count column. -/
theorem popularVideoLister_schema_witness :
    get_most_popular_videos "GB" samplePopResp (some "1") 50 false = samplePopDf ∧
    samplePopDf.cols = ["id", "published_at", "channel_title", "title", "description",
      "duration", "view_count", "region_code", "video_category_id"] ∧
    "like_count" ∉ samplePopDf.cols := by
  have h := popularVideoLister_schema "GB" samplePopResp (some "1") 50 false
      samplePopPrepared samplePopDf rfl rfl
  exact ⟨h.1, by decide, h.2.2 (by decide)⟩

/-- C5 witness: the two-item GB category response yields two rows stamped
GB, and none of the dropped bookkeeping columns. -/
theorem categoryLister_rows_and_schema_witness :
    sampleCatDf.rows.length = sampleCatItems.length ∧
    sampleCatRow1.lookup "region_code" = some (JValue.str "GB") ∧
    "kind" ∉ sampleCatDf.cols ∧ "etag" ∉ sampleCatDf.cols ∧
    "snippet.channelId" ∉ sampleCatDf.cols := by
  have h := categoryLister_rows_and_schema "GB" sampleCatFields sampleCatItems
      sampleCatDf rfl rfl
  exact ⟨h.1, h.2.1 sampleCatRow1 (List.mem_cons_self _ _), h.2.2.1, h.2.2.2.1,
    h.2.2.2.2⟩

/-- C6 witness: the sample response with nextPageToken TOK returns exactly
that token, and the tokenless sample returns an absent token. -/
theorem commentLister_next_page_token_witness :
    (some (JValue.str "TOK") : Option JValue)
      = sampleCommentRespFields.lookup "nextPageToken" ∧
    (none : Option JValue) = sampleNoTokFields.lookup "nextPageToken" :=
  ⟨commentLister_next_page_token "vid1" sampleCommentRespFields sampleCommentDf
      (some (.str "TOK")) rfl,
   commentLister_next_page_token "vid2" sampleNoTokFields sampleNoTokDf none rfl⟩

/-- C7 witness: on the sample response, whose second item has more replies
than the first, the returned rows still follow the item order. -/
theorem commentLister_row_order_witness :
    sampleCommentDf.rows.length = sampleCommentItems.length ∧
    ∃ cs, ∀ i (hi : i < sampleCommentItems.length)
        (hj : i < sampleCommentDf.rows.length),
      ∃ gs, sampleCommentItems.get ⟨i, hi⟩ = JValue.obj gs ∧
        sampleCommentDf.rows.get ⟨i, hj⟩ =
          setKey (selectRow cs (renameRow commentRenameMap (flattenFields gs)))
            "video_id" (JValue.str "vid1") :=
  commentLister_row_order "vid1" sampleCommentRespFields sampleCommentItems
    sampleCommentDf (some (.str "TOK")) rfl rfl

/-- C8 witness: the second sample row carries video_id = vid1. -/
theorem commentLister_video_id_stamp_witness :
    sampleCommentRow2.lookup "video_id" = some (JValue.str "vid1") :=
  commentLister_video_id_stamp "vid1" sampleCommentResp sampleCommentDf
    (some (.str "TOK")) rfl sampleCommentRow2
    (List.mem_cons_of_mem _ (List.mem_cons_self _ _))

/-- C9 witness: concrete failing inputs produce tables with zero columns. -/
theorem errorPath_empty_schema_witness :
    (get_most_popular_videos "GB" (.ok (.obj [])) none 50 false).cols = [] ∧
    (get_most_popular_videos "GB" (.ok (.obj [])) none 50 false).rows = [] ∧
    "region_code" ∉ (get_most_popular_videos "GB" (.ok (.obj [])) none 50 false).cols ∧
    "video_category_id" ∉
      (get_most_popular_videos "GB" (.ok (.obj [])) none 50 false).cols ∧
    get_top_level_comments "vid0" (.error (.httpError 403 "disabled"))
      = .ok (DataFrame.empty, none) ∧
    DataFrame.empty.cols = [] ∧ "video_id" ∉ DataFrame.empty.cols :=
  errorPath_empty_schema "GB" "vid0" (.ok (.obj [])) (.error (.httpError 403 "disabled"))
    none 50 false (.keyError "items") 403 "disabled" rfl rfl

/-- C10 witness: the sample table has no number_replies column and exactly
the selected schema with the replies column present. -/
theorem commentLister_no_number_replies_witness :
    "number_replies" ∉ sampleCommentDf.cols ∧
    (sampleCommentDf.cols = ["comment_id", "like_count", "comment_text", "video_id"] ∨
     sampleCommentDf.cols = ["comment_id", "like_count", "comment_text",
       "replies.comments", "video_id"]) := by
  have h := commentLister_no_number_replies "vid1" sampleCommentResp sampleCommentDf
      (some (.str "TOK")) rfl
  exact ⟨h.1, h.2 (.obj sampleCommentRespFields) rfl⟩
